import Mathlib

/-!
Verification of the MAML ant locomotion environments
(`maml_rl/envs/mujoco/ant.py`): the base `AntEnv` and the three task
variants `AntVelEnv`, `AntDirEnv`, `AntPosEnv`.

Modelling conventions of this shallow embedding:
* numpy floating-point scalars are modelled by `ℚ` (exact arithmetic);
  the one place where non-finite values matter — the full state vector
  feeding the termination check — uses the extended type `Flt`, which
  has explicit NaN and infinity constructors with IEEE-style ordering.
* the MuJoCo physics adapter (class `mujoco_env.MujocoEnv`, not part of
  the verified core) is abstracted by a type parameter `σ` for its
  internal simulation state and by an explicit `forward_dynamics`
  function `σ → List ℚ → σ × SimReadings` passed to `step`: it advances
  the simulation and exposes the post-step quantities the environment
  reads (`get_body_comvel`, `get_body_com`, `get_body_xmat`,
  `sim.data.qpos/qvel/cfrc_ext`, `state_vector`).
* Python dict task records are modelled by the record type `Task` with
  one optional field per variant key; `dict.get(k, d)` becomes
  `Option.getD`, and a bare subscript `task[k]` (which raises `KeyError`
  when the key is missing) becomes an `Option`-valued operation.
* `self.np_random` draws are modelled by explicit draw streams:
  `rng : ℕ → ℚ` of unit-interval draws for `uniform` and
  `coin : ℕ → ℕ` of {0,1} draws for `binomial(1, p=0.5)`.
-/

namespace MamlAnt

/-- An IEEE-style floating point value: either a finite value (modelled
exactly as a rational) or NaN / +inf / -inf.  Used for the entries of
`state_vector`, the input of the termination check. -/
inductive Flt where
  | fin : ℚ → Flt
  | nan : Flt
  | pinf : Flt
  | ninf : Flt
deriving DecidableEq

/-- `np.isfinite` on one entry. -/
def Flt.isfinite : Flt → Bool
  | .fin _ => true
  | _ => false

/-- IEEE `<=` on extended values: any comparison involving NaN is false. -/
def Flt.ble : Flt → Flt → Bool
  | .nan, _ => false
  | _, .nan => false
  | .ninf, _ => true
  | .pinf, .pinf => true
  | .pinf, _ => false
  | .fin _, .pinf => true
  | .fin _, .ninf => false
  | .fin a, .fin b => decide (a ≤ b)

/-- A task record: a Python dict with at most one of the keys
`velocity` (float), `direction` (int), `position` (2-vector).
A missing key is `none`. -/
structure Task where
  velocity : Option ℚ := none
  direction : Option ℤ := none
  position : Option (List ℚ) := none
deriving DecidableEq

/-- The quantities the environment reads from the physics adapter after
`forward_dynamics` has advanced the simulation. -/
structure SimReadings where
  qpos : List ℚ
  qvel : List ℚ
  cfrc_ext : List ℚ
  torso_xmat : List ℚ
  torso_com : List ℚ
  torso_comvel : List ℚ
  state_vector : List Flt

/-- State of the base class `AntEnv`: the adapter's simulation state
(abstract, type `σ`), the action-space bounds read from the adapter,
and the `self._action_scaling` cache (`None` initially). -/
structure AntEnvState (σ : Type) where
  sim_state : σ
  action_space_low : List ℚ
  action_space_high : List ℚ
  action_scaling_cache : Option (List ℚ)

/-- The `action_scaling` property: on first access compute
`0.5 * (ub - lb)` element-wise from the action-space bounds and cache
it; afterwards return the cached vector.  Returns the value together
with the (possibly updated) environment state. -/
def AntEnvState.action_scaling {σ : Type} (env : AntEnvState σ) :
    List ℚ × AntEnvState σ :=
  match env.action_scaling_cache with
  | some v => (v, env)
  | none =>
      let lb := env.action_space_low
      let ub := env.action_space_high
      let v := List.zipWith (fun u l => (1/2 : ℚ) * (u - l)) ub lb
      (v, { env with action_scaling_cache := some v })

/-- `np.clip(x, -1, 1)` on one component. -/
def np_clip1 (x : ℚ) : ℚ := min (max x (-1)) 1

/-- `AntEnv.get_current_obs`: concatenation of joint positions, joint
velocities, clipped external contact forces, flattened torso rotation
matrix and flattened torso center of mass.  (`.astype(np.float32)`
and `.flatten()` are the identity in this exact-arithmetic model.) -/
def get_current_obs (r : SimReadings) : List ℚ :=
  r.qpos ++ r.qvel ++ r.cfrc_ext.map np_clip1 ++ r.torso_xmat ++ r.torso_com

/-- One `np_random.uniform(lo, hi)` draw from a unit-interval draw `u`. -/
def np_uniform (lo hi u : ℚ) : ℚ := lo + (hi - lo) * u

/-- The generic return shape of `step`, with the info dict abstracted by
`I` (the variants use two different key sets). -/
structure StepOut (I : Type) where
  observation : List ℚ
  reward : ℚ
  done : Bool
  infos : I

/-- The info dict of `AntVelEnv.step` and `AntDirEnv.step`. -/
structure FwdInfos where
  reward_forward : ℚ
  reward_ctrl : ℚ
  reward_contact : ℚ
  reward_survive : ℚ
  task : Task

/-- The info dict of `AntPosEnv.step` (key `reward_goal` instead of
`reward_forward`). -/
structure PosInfos where
  reward_goal : ℚ
  reward_ctrl : ℚ
  reward_contact : ℚ
  reward_survive : ℚ
  task : Task

/-- State of `AntVelEnv`: the base state plus `self._task` and
`self._goal_vel`. -/
structure AntVelEnvState (σ : Type) extends AntEnvState σ where
  task : Task
  goal_vel : ℚ

/-- `AntVelEnv.__init__(task)`: store the record, derive
`_goal_vel = task.get('velocity', 0.0)`, leave the scaling cache empty.
The bounds and initial simulation state come from the (external)
adapter construction. -/
def AntVelEnvState.init {σ : Type} (task : Task) (s : σ)
    (low high : List ℚ) : AntVelEnvState σ :=
  { sim_state := s
    action_space_low := low
    action_space_high := high
    action_scaling_cache := none
    task := task
    goal_vel := task.velocity.getD 0 }

/-- `AntVelEnv.step(action)`.  `forward_dynamics` is the adapter call
(it advances `sim_state` and yields the post-step readings). -/
def AntVelEnvState.step {σ : Type} (env : AntVelEnvState σ)
    (forward_dynamics : σ → List ℚ → σ × SimReadings)
    (action : List ℚ) : StepOut FwdInfos × AntVelEnvState σ :=
  let sr := forward_dynamics env.sim_state action
  let r := sr.2
  let forward_vel := r.torso_comvel.getD 0 0
  let forward_reward := -1 * |forward_vel - env.goal_vel| + 1
  let survive_reward : ℚ := 1/20
  let asr := env.toAntEnvState.action_scaling
  let ctrl_cost : ℚ := (1/2) * (1/100) *
    (((List.zipWith (fun a s => a / s) action asr.1).map (fun x => x ^ 2)).sum)
  let contact_cost : ℚ := (1/2) * (1/1000) *
    (((r.cfrc_ext.map np_clip1).map (fun x => x ^ 2)).sum)
  let observation := get_current_obs r
  let reward := forward_reward - ctrl_cost - contact_cost + survive_reward
  let state := r.state_vector
  let notdone := state.all Flt.isfinite
    && Flt.ble (.fin (1/5)) (state.getD 2 .nan)
    && Flt.ble (state.getD 2 .nan) (.fin 1)
  let done := !notdone
  (⟨observation, reward, done,
    ⟨forward_reward, -ctrl_cost, -contact_cost, survive_reward, env.task⟩⟩,
   { asr.2 with sim_state := sr.1, task := env.task, goal_vel := env.goal_vel })

/-- `AntVelEnv.sample_tasks(num_tasks)`: `num_tasks` uniform draws from
`[0.0, 3.0]`, one record `{velocity: v}` each. -/
def AntVelEnvState.sample_tasks (num_tasks : ℕ) (rng : ℕ → ℚ) : List Task :=
  (List.range num_tasks).map
    (fun i => { velocity := some (np_uniform 0 3 (rng i)) })

/-- `AntVelEnv.reset_task(task)`: store the record and set
`_goal_vel = task['velocity']`; the bare subscript raises `KeyError`
when the key is missing, modelled by `none`. -/
def AntVelEnvState.reset_task {σ : Type} (env : AntVelEnvState σ)
    (task : Task) : Option (AntVelEnvState σ) :=
  match task.velocity with
  | none => none
  | some v => some { env with task := task, goal_vel := v }

/-- State of `AntDirEnv`: the base state plus `self._task` and
`self._goal_dir`. -/
structure AntDirEnvState (σ : Type) extends AntEnvState σ where
  task : Task
  goal_dir : ℤ

/-- `AntDirEnv.__init__(task)`: `_goal_dir = task.get('direction', 1)`. -/
def AntDirEnvState.init {σ : Type} (task : Task) (s : σ)
    (low high : List ℚ) : AntDirEnvState σ :=
  { sim_state := s
    action_space_low := low
    action_space_high := high
    action_scaling_cache := none
    task := task
    goal_dir := task.direction.getD 1 }

/-- `AntDirEnv.step(action)`: identical to the velocity variant except
`forward_reward = goal_dir * forward_vel`. -/
def AntDirEnvState.step {σ : Type} (env : AntDirEnvState σ)
    (forward_dynamics : σ → List ℚ → σ × SimReadings)
    (action : List ℚ) : StepOut FwdInfos × AntDirEnvState σ :=
  let sr := forward_dynamics env.sim_state action
  let r := sr.2
  let forward_vel := r.torso_comvel.getD 0 0
  let forward_reward := (env.goal_dir : ℚ) * forward_vel
  let survive_reward : ℚ := 1/20
  let asr := env.toAntEnvState.action_scaling
  let ctrl_cost : ℚ := (1/2) * (1/100) *
    (((List.zipWith (fun a s => a / s) action asr.1).map (fun x => x ^ 2)).sum)
  let contact_cost : ℚ := (1/2) * (1/1000) *
    (((r.cfrc_ext.map np_clip1).map (fun x => x ^ 2)).sum)
  let observation := get_current_obs r
  let reward := forward_reward - ctrl_cost - contact_cost + survive_reward
  let state := r.state_vector
  let notdone := state.all Flt.isfinite
    && Flt.ble (.fin (1/5)) (state.getD 2 .nan)
    && Flt.ble (state.getD 2 .nan) (.fin 1)
  let done := !notdone
  (⟨observation, reward, done,
    ⟨forward_reward, -ctrl_cost, -contact_cost, survive_reward, env.task⟩⟩,
   { asr.2 with sim_state := sr.1, task := env.task, goal_dir := env.goal_dir })

/-- `AntDirEnv.sample_tasks(num_tasks)`:
`directions = 2 * binomial(1, p=0.5, size=n) - 1`, one record
`{direction: d}` per draw. -/
def AntDirEnvState.sample_tasks (num_tasks : ℕ) (coin : ℕ → ℕ) : List Task :=
  (List.range num_tasks).map
    (fun i => { direction := some (2 * (coin i : ℤ) - 1) })

/-- `AntDirEnv.reset_task(task)`: `_goal_dir = task['direction']`. -/
def AntDirEnvState.reset_task {σ : Type} (env : AntDirEnvState σ)
    (task : Task) : Option (AntDirEnvState σ) :=
  match task.direction with
  | none => none
  | some d => some { env with task := task, goal_dir := d }

/-- State of `AntPosEnv`: the base state plus `self._task` and
`self._goal_pos`. -/
structure AntPosEnvState (σ : Type) extends AntEnvState σ where
  task : Task
  goal_pos : List ℚ

/-- `AntPosEnv.__init__(task)`:
`_goal_pos = task.get('position', np.zeros((2,)))`. -/
def AntPosEnvState.init {σ : Type} (task : Task) (s : σ)
    (low high : List ℚ) : AntPosEnvState σ :=
  { sim_state := s
    action_space_low := low
    action_space_high := high
    action_scaling_cache := none
    task := task
    goal_pos := task.position.getD [0, 0] }

/-- `AntPosEnv.step(action)`: the task reward is
`goal_reward = -sum(|xyposafter - goal_pos|) + 4.0` with
`xyposafter = get_body_com("torso")[:2]`; the info dict uses the key
`reward_goal`. -/
def AntPosEnvState.step {σ : Type} (env : AntPosEnvState σ)
    (forward_dynamics : σ → List ℚ → σ × SimReadings)
    (action : List ℚ) : StepOut PosInfos × AntPosEnvState σ :=
  let sr := forward_dynamics env.sim_state action
  let r := sr.2
  let xyposafter := r.torso_com.take 2
  let goal_reward : ℚ :=
    -((List.zipWith (fun x g => |x - g|) xyposafter env.goal_pos).sum) + 4
  let survive_reward : ℚ := 1/20
  let asr := env.toAntEnvState.action_scaling
  let ctrl_cost : ℚ := (1/2) * (1/100) *
    (((List.zipWith (fun a s => a / s) action asr.1).map (fun x => x ^ 2)).sum)
  let contact_cost : ℚ := (1/2) * (1/1000) *
    (((r.cfrc_ext.map np_clip1).map (fun x => x ^ 2)).sum)
  let observation := get_current_obs r
  let reward := goal_reward - ctrl_cost - contact_cost + survive_reward
  let state := r.state_vector
  let notdone := state.all Flt.isfinite
    && Flt.ble (.fin (1/5)) (state.getD 2 .nan)
    && Flt.ble (state.getD 2 .nan) (.fin 1)
  let done := !notdone
  (⟨observation, reward, done,
    ⟨goal_reward, -ctrl_cost, -contact_cost, survive_reward, env.task⟩⟩,
   { asr.2 with sim_state := sr.1, task := env.task, goal_pos := env.goal_pos })

/-- `AntPosEnv.sample_tasks(num_tasks)`: uniform draws from `[-3, 3]^2`,
one record `{position: p}` per row, two components per row. -/
def AntPosEnvState.sample_tasks (num_tasks : ℕ) (rng : ℕ → ℚ) : List Task :=
  (List.range num_tasks).map (fun i =>
    let p := [np_uniform (-3) 3 (rng (2 * i)), np_uniform (-3) 3 (rng (2 * i + 1))]
    { position := some p })

/-- `AntPosEnv.reset_task(task)`: `_goal_pos = task['position']`. -/
def AntPosEnvState.reset_task {σ : Type} (env : AntPosEnvState σ)
    (task : Task) : Option (AntPosEnvState σ) :=
  match task.position with
  | none => none
  | some p => some { env with task := task, goal_pos := p }

/-- A concrete `SimReadings` fixture for the closed witness theorems. -/
def wSim : SimReadings :=
  { qpos := [0, 0]
    qvel := [0]
    cfrc_ext := [2, -3, 1/2]
    torso_xmat := [1, 0, 0, 1]
    torso_com := [3, -1, 1/2]
    torso_comvel := [2, 0]
    state_vector := [.fin 0, .fin 0, .fin (1/2), .fin 7] }

/-- A concrete dynamics function for the witness theorems: the adapter
state is trivial and every step yields the fixture readings. -/
def wFd : Unit → List ℚ → Unit × SimReadings := fun _ _ => ((), wSim)

/-- A concrete base-environment fixture. -/
def wBase : AntEnvState Unit :=
  { sim_state := ()
    action_space_low := [-1, -1]
    action_space_high := [1, 1]
    action_scaling_cache := none }

/-- A concrete velocity-variant fixture (goal velocity 2). -/
def wVel : AntVelEnvState Unit :=
  { toAntEnvState := wBase, task := {}, goal_vel := 2 }

/-- A concrete direction-variant fixture. -/
def wDir : AntDirEnvState Unit :=
  { toAntEnvState := wBase, task := {}, goal_dir := 1 }

/-- A concrete position-variant fixture. -/
def wPos : AntPosEnvState Unit :=
  { toAntEnvState := wBase, task := {}, goal_pos := [1, 1] }

/-- A concrete velocity task record for the witness theorems. -/
def wTaskV : Task := { velocity := some 2 }

/-- A concrete direction task record for the witness theorems. -/
def wTaskD : Task := { direction := some (-1) }

/-- A concrete position task record for the witness theorems. -/
def wTaskP : Task := { position := some [1, 2] }

/-- The velocity fixture after `reset_task wTaskV`. -/
def wVel2 : AntVelEnvState Unit := { wVel with task := wTaskV, goal_vel := 2 }

/-- A concrete unit-interval draw stream (all zeros). -/
def wRng : ℕ → ℚ := fun _ => 0

/-- A concrete Bernoulli draw stream (all ones). -/
def wCoin : ℕ → ℕ := fun _ => 1

/-- The specification's reading of the termination rule:
`done = NOT (all(state finite) AND 0.2 <= state[2] <= 1.0)`, stated at
the propositional level (the height comparison can only hold when
`state[2]` is an actual finite value). -/
def doneSpec (state : List Flt) : Prop :=
  ¬ ((∀ x ∈ state, x.isfinite = true) ∧
     ∃ q, state.getD 2 Flt.nan = Flt.fin q ∧ (1/5 : ℚ) ≤ q ∧ q ≤ 1)

/-- The boolean `notdone` expression of the source holds exactly when
every state entry is finite and the torso height entry is an actual
finite value inside `[0.2, 1.0]`. -/
theorem notdone_iff (s : List Flt) :
    (s.all Flt.isfinite && Flt.ble (.fin (1/5)) (s.getD 2 .nan)
      && Flt.ble (s.getD 2 .nan) (.fin 1)) = true
      ↔ ((∀ x ∈ s, x.isfinite = true) ∧
         ∃ q, s.getD 2 Flt.nan = Flt.fin q ∧ (1/5 : ℚ) ≤ q ∧ q ≤ 1) := by
  constructor
  · intro h
    simp only [Bool.and_eq_true] at h
    obtain ⟨⟨hall, h1⟩, h2⟩ := h
    refine ⟨List.all_eq_true.mp hall, ?_⟩
    rcases hq : s.getD 2 Flt.nan with q | _ | _ | _ <;> rw [hq] at h1 h2
    · exact ⟨q, rfl, by simpa [Flt.ble] using h1, by simpa [Flt.ble] using h2⟩
    · simp [Flt.ble] at h1
    · simp [Flt.ble] at h2
    · simp [Flt.ble] at h1
  · rintro ⟨hfin, q, hq, h1, h2⟩
    simp only [Bool.and_eq_true, hq, Flt.ble, List.all_eq_true,
      decide_eq_true_eq]
    exact ⟨⟨hfin, h1⟩, h2⟩

/-- The boolean `done` of the source agrees with the specification's
termination predicate. -/
theorem done_formula (s : List Flt) :
    ((!(s.all Flt.isfinite && Flt.ble (.fin (1/5)) (s.getD 2 .nan)
      && Flt.ble (s.getD 2 .nan) (.fin 1))) = true) ↔ doneSpec s := by
  unfold doneSpec
  rw [← notdone_iff s]
  generalize (s.all Flt.isfinite && Flt.ble (.fin (1/5)) (s.getD 2 .nan)
    && Flt.ble (s.getD 2 .nan) (.fin 1)) = b
  cases b <;> simp

/-- C1: for every variant (Velocity, Direction, Position), `step`
returns `done` computed from the post-step full state vector as
`done = NOT (all entries finite AND 0.2 <= state[2] <= 1.0)`; in
particular `state[2] = 0.19` forces termination, an all-finite state
with `state[2] = 0.5` gives `done = False`, and a NaN anywhere forces
`done = True` regardless of `state[2]`. -/
theorem C1_step_done {σV σD σP : Type}
    (envV : AntVelEnvState σV) (fdV : σV → List ℚ → σV × SimReadings) (aV : List ℚ)
    (envD : AntDirEnvState σD) (fdD : σD → List ℚ → σD × SimReadings) (aD : List ℚ)
    (envP : AntPosEnvState σP) (fdP : σP → List ℚ → σP × SimReadings) (aP : List ℚ) :
    ((envV.step fdV aV).1.done = true
       ↔ doneSpec (fdV envV.sim_state aV).2.state_vector) ∧
    ((envD.step fdD aD).1.done = true
       ↔ doneSpec (fdD envD.sim_state aD).2.state_vector) ∧
    ((envP.step fdP aP).1.done = true
       ↔ doneSpec (fdP envP.sim_state aP).2.state_vector) ∧
    (∀ s : List Flt, s.getD 2 Flt.nan = Flt.fin (19/100) → doneSpec s) ∧
    (∀ s : List Flt, (∀ x ∈ s, x.isfinite = true) →
       s.getD 2 Flt.nan = Flt.fin (1/2) → ¬ doneSpec s) ∧
    (∀ s : List Flt, Flt.nan ∈ s → doneSpec s) := by
  refine ⟨done_formula _, done_formula _, done_formula _, ?_, ?_, ?_⟩
  · intro s hs hcon
    obtain ⟨_, q, hq, h1, _⟩ := hcon
    rw [hs] at hq
    injection hq with e
    rw [← e] at h1
    norm_num at h1
  · intro s hfin hs hd
    exact hd ⟨hfin, 1/2, hs, by norm_num, by norm_num⟩
  · intro s hnan hcon
    have := hcon.1 Flt.nan hnan
    simp [Flt.isfinite] at this

/-- C1 witness: a concrete state vector with `state[2] = 0.19` satisfies
the termination predicate. -/
theorem C1_step_done_witness :
    doneSpec [Flt.fin 0, Flt.fin 0, Flt.fin (19/100)] :=
  (C1_step_done wVel wFd [] wDir wFd [] wPos wFd []).2.2.2.1
    [Flt.fin 0, Flt.fin 0, Flt.fin (19/100)] (by rfl)

/-- C2: in the Velocity variant, `step` computes
`forward_reward = -|forward_vel - goal_vel| + 1.0` where `forward_vel`
is the first component of the torso center-of-mass velocity after the
physics step; when `forward_vel = goal_vel`, the `reward_forward`
entry of the info mapping is exactly 1. -/
theorem C2_forward_reward {σ : Type} (env : AntVelEnvState σ)
    (fd : σ → List ℚ → σ × SimReadings) (a : List ℚ) :
    (env.step fd a).1.infos.reward_forward
      = -|(fd env.sim_state a).2.torso_comvel.getD 0 0 - env.goal_vel| + 1 ∧
    ((fd env.sim_state a).2.torso_comvel.getD 0 0 = env.goal_vel →
      (env.step fd a).1.infos.reward_forward = 1) := by
  have hd : (env.step fd a).1.infos.reward_forward
      = -1 * |(fd env.sim_state a).2.torso_comvel.getD 0 0 - env.goal_vel| + 1 := rfl
  constructor
  · rw [hd]; ring
  · intro h; rw [hd, h, sub_self, abs_zero]; ring

/-- C2 witness: a concrete instance whose post-step forward velocity
(2) equals the goal velocity (2) reports `reward_forward = 1`. -/
theorem C2_forward_reward_witness :
    (wVel.step wFd []).1.infos.reward_forward = 1 :=
  (C2_forward_reward wVel wFd []).2 (by rfl)

/-- C10: for every variant the scalar reward equals the sum of the four
reward components of the info mapping, the control and contact
components being stored there already negated. -/
theorem C10_reward_sum {σV σD σP : Type}
    (envV : AntVelEnvState σV) (fdV : σV → List ℚ → σV × SimReadings) (aV : List ℚ)
    (envD : AntDirEnvState σD) (fdD : σD → List ℚ → σD × SimReadings) (aD : List ℚ)
    (envP : AntPosEnvState σP) (fdP : σP → List ℚ → σP × SimReadings) (aP : List ℚ) :
    ((envV.step fdV aV).1.reward
       = (envV.step fdV aV).1.infos.reward_forward
         + (envV.step fdV aV).1.infos.reward_ctrl
         + (envV.step fdV aV).1.infos.reward_contact
         + (envV.step fdV aV).1.infos.reward_survive) ∧
    ((envD.step fdD aD).1.reward
       = (envD.step fdD aD).1.infos.reward_forward
         + (envD.step fdD aD).1.infos.reward_ctrl
         + (envD.step fdD aD).1.infos.reward_contact
         + (envD.step fdD aD).1.infos.reward_survive) ∧
    ((envP.step fdP aP).1.reward
       = (envP.step fdP aP).1.infos.reward_goal
         + (envP.step fdP aP).1.infos.reward_ctrl
         + (envP.step fdP aP).1.infos.reward_contact
         + (envP.step fdP aP).1.infos.reward_survive) ∧
    ((envV.step fdV aV).1.infos.reward_ctrl
       = -((1/2) * (1/100) *
           (((List.zipWith (fun x s => x / s) aV
               (envV.toAntEnvState.action_scaling).1).map (fun x => x ^ 2)).sum))) ∧
    ((envV.step fdV aV).1.infos.reward_contact
       = -((1/2) * (1/1000) *
           ((((fdV envV.sim_state aV).2.cfrc_ext.map np_clip1).map
               (fun x => x ^ 2)).sum))) ∧
    ((envD.step fdD aD).1.infos.reward_ctrl
       = -((1/2) * (1/100) *
           (((List.zipWith (fun x s => x / s) aD
               (envD.toAntEnvState.action_scaling).1).map (fun x => x ^ 2)).sum))) ∧
    ((envD.step fdD aD).1.infos.reward_contact
       = -((1/2) * (1/1000) *
           ((((fdD envD.sim_state aD).2.cfrc_ext.map np_clip1).map
               (fun x => x ^ 2)).sum))) ∧
    ((envP.step fdP aP).1.infos.reward_ctrl
       = -((1/2) * (1/100) *
           (((List.zipWith (fun x s => x / s) aP
               (envP.toAntEnvState.action_scaling).1).map (fun x => x ^ 2)).sum))) ∧
    ((envP.step fdP aP).1.infos.reward_contact
       = -((1/2) * (1/1000) *
           ((((fdP envP.sim_state aP).2.cfrc_ext.map np_clip1).map
               (fun x => x ^ 2)).sum))) := by
  refine ⟨?_, ?_, ?_, rfl, rfl, rfl, rfl, rfl, rfl⟩
  · simp only [AntVelEnvState.step]; ring
  · simp only [AntDirEnvState.step]; ring
  · simp only [AntPosEnvState.step]; ring

/-- Clipping to `[-1, 1]` written as in the source (`min (max x (-1)) 1`)
agrees with the specification's reading (`max (-1) (min 1 x)`). -/
theorem np_clip1_eq (x : ℚ) : np_clip1 x = max (-1) (min 1 x) := by
  unfold np_clip1
  rcases le_total x (-1) with h | h
  · rw [max_eq_right h, min_eq_left (by norm_num : (-1 : ℚ) ≤ 1),
      min_eq_right (h.trans (by norm_num)), max_eq_left h]
  · rcases le_total x 1 with h2 | h2
    · rw [max_eq_left h, min_eq_left h2, min_eq_right h2, max_eq_right h]
    · rw [max_eq_left h, min_eq_right h2, min_eq_left h2,
        max_eq_right (by norm_num : (-1 : ℚ) ≤ 1)]

/-- C9: `get_current_obs` is exactly the concatenation, in order, of
joint positions, joint velocities, the contact forces clipped
component-wise to `[-1, 1]`, the flattened torso orientation matrix and
the flattened torso center of mass; its length is the sum of the part
lengths and the only transformed part is the clipped one, whose entries
all land in `[-1, 1]`. -/
theorem C9_get_current_obs (r : SimReadings) :
    get_current_obs r
      = r.qpos ++ r.qvel ++ r.cfrc_ext.map (fun x => max (-1) (min 1 x))
        ++ r.torso_xmat ++ r.torso_com ∧
    (get_current_obs r).length
      = r.qpos.length + r.qvel.length + r.cfrc_ext.length
        + r.torso_xmat.length + r.torso_com.length ∧
    (∀ x ∈ r.cfrc_ext.map np_clip1, -1 ≤ x ∧ x ≤ 1) := by
  refine ⟨?_, ?_, ?_⟩
  · have hc : np_clip1 = fun x => max (-1) (min 1 x) := funext np_clip1_eq
    rw [get_current_obs, hc]
  · simp only [get_current_obs, List.length_append, List.length_map]
  · intro x hx
    rw [List.mem_map] at hx
    obtain ⟨y, _, rfl⟩ := hx
    unfold np_clip1
    exact ⟨le_min (le_max_right y (-1)) (by norm_num), min_le_right _ _⟩

/-- C9 witness: a clipped contact-force entry of the concrete fixture
lies in `[-1, 1]`. -/
theorem C9_get_current_obs_witness :
    -1 ≤ np_clip1 2 ∧ np_clip1 2 ≤ 1 :=
  (C9_get_current_obs wSim).2.2 (np_clip1 2)
    (List.mem_map_of_mem np_clip1 (by simp [wSim]))

/-- C3: `action_scaling` computes `0.5 * (ub - lb)` element-wise from
the action-space bounds on first access (empty cache), stores it in the
cache, and every later access returns the identical vector without
changing the state; `reset_task` (any variant) leaves the whole base
state — cache included — untouched, so accesses after any number of
`reset_task` calls still return the same vector. -/
theorem C3_action_scaling {σ : Type} (env : AntEnvState σ)
    (hnone : env.action_scaling_cache = none)
    (env2 : AntEnvState σ)
    (envV envV' : AntVelEnvState σ) (tV : Task)
    (hV : envV.reset_task tV = some envV')
    (envD envD' : AntDirEnvState σ) (tD : Task)
    (hD : envD.reset_task tD = some envD')
    (envP envP' : AntPosEnvState σ) (tP : Task)
    (hP : envP.reset_task tP = some envP') :
    (env.action_scaling).1
      = List.zipWith (fun u l => (1/2 : ℚ) * (u - l))
          env.action_space_high env.action_space_low ∧
    (env.action_scaling).2.action_scaling_cache = some (env.action_scaling).1 ∧
    ((env2.action_scaling).2.action_scaling
       = ((env2.action_scaling).1, (env2.action_scaling).2)) ∧
    envV'.toAntEnvState = envV.toAntEnvState ∧
    envD'.toAntEnvState = envD.toAntEnvState ∧
    envP'.toAntEnvState = envP.toAntEnvState := by
  refine ⟨?_, ?_, ?_, ?_, ?_, ?_⟩
  · simp [AntEnvState.action_scaling, hnone]
  · simp [AntEnvState.action_scaling, hnone]
  · rcases h2 : env2.action_scaling_cache with _ | v <;>
      simp [AntEnvState.action_scaling, h2]
  · rcases ht : tV.velocity with _ | v <;>
      simp [AntVelEnvState.reset_task, ht] at hV
    rw [← hV]
  · rcases ht : tD.direction with _ | d <;>
      simp [AntDirEnvState.reset_task, ht] at hD
    rw [← hD]
  · rcases ht : tP.position with _ | p <;>
      simp [AntPosEnvState.reset_task, ht] at hP
    rw [← hP]

/-- C3 witness: the concrete base fixture (empty cache, bounds
`[-1, -1]` and `[1, 1]`) yields the element-wise half range on first
access. -/
theorem C3_action_scaling_witness :
    (wBase.action_scaling).1
      = List.zipWith (fun u l => (1/2 : ℚ) * (u - l))
          wBase.action_space_high wBase.action_space_low :=
  (C3_action_scaling wBase rfl wBase wVel wVel2 wTaskV rfl
    wDir { wDir with task := wTaskD, goal_dir := -1 } wTaskD rfl
    wPos { wPos with task := wTaskP, goal_pos := [1, 2] } wTaskP rfl).1

/-- C4: for every variant, a successful `reset_task record` replaces the
stored task with the record, recomputes the derived goal from it, and
changes nothing else (the simulation state, bounds and scaling cache of
the base state are untouched, being part of the unchanged remainder);
the next `step` call computes the task reward against the new goal. -/
theorem C4_reset_task {σV σD σP : Type}
    (envV envV' : AntVelEnvState σV) (tV : Task) (v : ℚ)
    (hv : tV.velocity = some v) (hV : envV.reset_task tV = some envV')
    (fdV : σV → List ℚ → σV × SimReadings) (aV : List ℚ)
    (envD envD' : AntDirEnvState σD) (tD : Task) (d : ℤ)
    (hdi : tD.direction = some d) (hD : envD.reset_task tD = some envD')
    (fdD : σD → List ℚ → σD × SimReadings) (aD : List ℚ)
    (envP envP' : AntPosEnvState σP) (tP : Task) (p : List ℚ)
    (hp : tP.position = some p) (hP : envP.reset_task tP = some envP')
    (fdP : σP → List ℚ → σP × SimReadings) (aP : List ℚ) :
    (envV' = { envV with task := tV, goal_vel := v } ∧
     (envV'.step fdV aV).1.infos.reward_forward
       = -1 * |(fdV envV'.sim_state aV).2.torso_comvel.getD 0 0 - v| + 1) ∧
    (envD' = { envD with task := tD, goal_dir := d } ∧
     (envD'.step fdD aD).1.infos.reward_forward
       = (d : ℚ) * (fdD envD'.sim_state aD).2.torso_comvel.getD 0 0) ∧
    (envP' = { envP with task := tP, goal_pos := p } ∧
     (envP'.step fdP aP).1.infos.reward_goal
       = -((List.zipWith (fun x g => |x - g|)
             ((fdP envP'.sim_state aP).2.torso_com.take 2) p).sum) + 4) := by
  refine ⟨?_, ?_, ?_⟩
  · simp [AntVelEnvState.reset_task, hv] at hV
    subst hV
    exact ⟨rfl, rfl⟩
  · simp [AntDirEnvState.reset_task, hdi] at hD
    subst hD
    exact ⟨rfl, rfl⟩
  · simp [AntPosEnvState.reset_task, hp] at hP
    subst hP
    exact ⟨rfl, rfl⟩

/-- C4 witness: after `reset_task {velocity: 2}` on the concrete
fixture, the next step's `reward_forward` is computed against goal 2. -/
theorem C4_reset_task_witness :
    (wVel2.step wFd []).1.infos.reward_forward
      = -1 * |(wFd wVel2.sim_state []).2.torso_comvel.getD 0 0 - 2| + 1 :=
  (C4_reset_task wVel wVel2 wTaskV 2 rfl rfl wFd []
    wDir { wDir with task := wTaskD, goal_dir := -1 } wTaskD (-1) rfl rfl wFd []
    wPos { wPos with task := wTaskP, goal_pos := [1, 2] } wTaskP [1, 2] rfl rfl
    wFd []).1.2

/-- C5 counterexample: the claim says a record lacking the variant's key
is tolerated by `reset_task` with a default-value fallback, but in each
variant `reset_task` on the empty record performs a bare key lookup and
raises (modelled as `none`), for concrete environment instances. -/
theorem C5_counterexample :
    wVel.reset_task { } = none ∧ wDir.reset_task { } = none ∧
    wPos.reset_task { } = none :=
  ⟨rfl, rfl, rfl⟩

/-- C5 amended: a record lacking the variant's expected key is tolerated
with the documented default fallback at construction time only
(`goal_vel = 0`, `goal_dir = 1`, `goal_pos = (0, 0)`); passing such a
record to `reset_task` instead raises a key-lookup fault in every
variant. -/
theorem C5_amended_defaults {σ : Type} (s : σ) (low high : List ℚ) (t : Task)
    (hv : t.velocity = none) (hdi : t.direction = none) (hp : t.position = none)
    (envV : AntVelEnvState σ) (envD : AntDirEnvState σ) (envP : AntPosEnvState σ) :
    (AntVelEnvState.init t s low high).goal_vel = 0 ∧
    (AntDirEnvState.init t s low high).goal_dir = 1 ∧
    (AntPosEnvState.init t s low high).goal_pos = [0, 0] ∧
    envV.reset_task t = none ∧ envD.reset_task t = none ∧
    envP.reset_task t = none := by
  refine ⟨?_, ?_, ?_, ?_, ?_, ?_⟩ <;>
    simp [AntVelEnvState.init, AntDirEnvState.init, AntPosEnvState.init,
      AntVelEnvState.reset_task, AntDirEnvState.reset_task,
      AntPosEnvState.reset_task, hv, hdi, hp]

/-- C5 witness: the empty record at construction time yields the three
default goals, and `reset_task` on it faults in each variant. -/
theorem C5_amended_defaults_witness :
    (AntVelEnvState.init ({ } : Task) (() : Unit) [] []).goal_vel = 0 ∧
    (AntDirEnvState.init ({ } : Task) (() : Unit) [] []).goal_dir = 1 ∧
    (AntPosEnvState.init ({ } : Task) (() : Unit) [] []).goal_pos = [0, 0] ∧
    wVel.reset_task { } = none ∧ wDir.reset_task { } = none ∧
    wPos.reset_task { } = none :=
  C5_amended_defaults () [] [] { } rfl rfl rfl wVel wDir wPos

/-- C6: for every variant, any record produced by `sample_tasks` is
accepted by `reset_task` (the lookup succeeds), is stored verbatim as
the current task, and is returned unmodified under the `task` key of
the info mapping of the next `step` call. -/
theorem C6_roundtrip {σV σD σP : Type} (n : ℕ)
    (rngV : ℕ → ℚ) (coin : ℕ → ℕ) (rngP : ℕ → ℚ)
    (fdV : σV → List ℚ → σV × SimReadings) (aV : List ℚ)
    (fdD : σD → List ℚ → σD × SimReadings) (aD : List ℚ)
    (fdP : σP → List ℚ → σP × SimReadings) (aP : List ℚ) :
    (∀ t ∈ AntVelEnvState.sample_tasks n rngV, ∀ env : AntVelEnvState σV,
       (env.reset_task t).isSome = true ∧
       ((env.reset_task t).getD env).task = t ∧
       ((((env.reset_task t).getD env).step fdV aV).1.infos.task = t)) ∧
    (∀ t ∈ AntDirEnvState.sample_tasks n coin, ∀ env : AntDirEnvState σD,
       (env.reset_task t).isSome = true ∧
       ((env.reset_task t).getD env).task = t ∧
       ((((env.reset_task t).getD env).step fdD aD).1.infos.task = t)) ∧
    (∀ t ∈ AntPosEnvState.sample_tasks n rngP, ∀ env : AntPosEnvState σP,
       (env.reset_task t).isSome = true ∧
       ((env.reset_task t).getD env).task = t ∧
       ((((env.reset_task t).getD env).step fdP aP).1.infos.task = t)) := by
  refine ⟨?_, ?_, ?_⟩
  · intro t ht env
    simp only [AntVelEnvState.sample_tasks, List.mem_map, List.mem_range] at ht
    obtain ⟨i, _, hti⟩ := ht
    subst hti
    exact ⟨rfl, rfl, rfl⟩
  · intro t ht env
    simp only [AntDirEnvState.sample_tasks, List.mem_map, List.mem_range] at ht
    obtain ⟨i, _, hti⟩ := ht
    subst hti
    exact ⟨rfl, rfl, rfl⟩
  · intro t ht env
    simp only [AntPosEnvState.sample_tasks, List.mem_map, List.mem_range] at ht
    obtain ⟨i, _, hti⟩ := ht
    subst hti
    exact ⟨rfl, rfl, rfl⟩

/-- C6 witness: the single record sampled by the concrete velocity
fixture round-trips through `reset_task` into the next step's info
mapping. -/
theorem C6_roundtrip_witness :
    (wVel.reset_task { velocity := some (np_uniform 0 3 (wRng 0)) }).isSome = true ∧
    ((wVel.reset_task { velocity := some (np_uniform 0 3 (wRng 0)) }).getD wVel).task
      = { velocity := some (np_uniform 0 3 (wRng 0)) } ∧
    ((((wVel.reset_task { velocity := some (np_uniform 0 3 (wRng 0)) }).getD
        wVel).step wFd []).1.infos.task
      = { velocity := some (np_uniform 0 3 (wRng 0)) }) :=
  (C6_roundtrip 1 wRng wCoin wRng wFd [] wFd [] wFd []).1
    { velocity := some (np_uniform 0 3 (wRng 0)) }
    (List.mem_map_of_mem _ (List.mem_range.mpr Nat.one_pos)) wVel

/-- C7: in the Direction variant, `sample_tasks n` returns exactly `n`
records; the `i`-th is `{direction: 2 * b_i - 1}` where `b_i` is the
`i`-th Bernoulli draw, and when every draw lies in `{0, 1}` every
returned direction lies in `{-1, +1}`. -/
theorem C7_sample_tasks_dir (n : ℕ) (coin : ℕ → ℕ) (hcoin : ∀ i, coin i ≤ 1) :
    (AntDirEnvState.sample_tasks n coin).length = n ∧
    (∀ i, i < n → (AntDirEnvState.sample_tasks n coin)[i]?
        = some { direction := some (2 * (coin i : ℤ) - 1) }) ∧
    (∀ t ∈ AntDirEnvState.sample_tasks n coin,
       t.direction = some (-1) ∨ t.direction = some 1) := by
  refine ⟨by simp [AntDirEnvState.sample_tasks], ?_, ?_⟩
  · intro i hi
    simp [AntDirEnvState.sample_tasks, List.getElem?_map, List.getElem?_range, hi]
  · intro t ht
    simp only [AntDirEnvState.sample_tasks, List.mem_map, List.mem_range] at ht
    obtain ⟨i, _, hti⟩ := ht
    subst hti
    rcases Nat.le_one_iff_eq_zero_or_eq_one.mp (hcoin i) with h | h
    · rw [h]; norm_num
    · rw [h]; norm_num

/-- C7 witness: two draws from the concrete all-ones Bernoulli stream
produce exactly two records. -/
theorem C7_sample_tasks_dir_witness :
    (AntDirEnvState.sample_tasks 2 wCoin).length = 2 :=
  (C7_sample_tasks_dir 2 wCoin (fun _ => Nat.le_refl 1)).1

/-- C8: `sample_tasks n` of the Velocity variant returns exactly `n`
records `{velocity: v}` with `v ∈ [0, 3]` (for unit-interval draws),
and `sample_tasks m` of the Position variant returns exactly `m`
records `{position: p}` with `p` of length two and every component in
`[-3, 3]`. -/
theorem C8_sample_tasks_vel_pos (n m : ℕ) (rngV rngP : ℕ → ℚ)
    (hV : ∀ i, 0 ≤ rngV i ∧ rngV i ≤ 1)
    (hP : ∀ i, 0 ≤ rngP i ∧ rngP i ≤ 1) :
    (AntVelEnvState.sample_tasks n rngV).length = n ∧
    (∀ t ∈ AntVelEnvState.sample_tasks n rngV,
       ∃ v, t.velocity = some v ∧ 0 ≤ v ∧ v ≤ 3) ∧
    (AntPosEnvState.sample_tasks m rngP).length = m ∧
    (∀ t ∈ AntPosEnvState.sample_tasks m rngP,
       ∃ p, t.position = some p ∧ p.length = 2 ∧ ∀ x ∈ p, -3 ≤ x ∧ x ≤ 3) := by
  refine ⟨by simp [AntVelEnvState.sample_tasks], ?_,
    by simp [AntPosEnvState.sample_tasks], ?_⟩
  · intro t ht
    simp only [AntVelEnvState.sample_tasks, List.mem_map, List.mem_range] at ht
    obtain ⟨i, _, hti⟩ := ht
    subst hti
    obtain ⟨h0, h1⟩ := hV i
    refine ⟨np_uniform 0 3 (rngV i), rfl, ?_, ?_⟩ <;> unfold np_uniform <;> linarith
  · intro t ht
    simp only [AntPosEnvState.sample_tasks, List.mem_map, List.mem_range] at ht
    obtain ⟨i, _, hti⟩ := ht
    subst hti
    refine ⟨[np_uniform (-3) 3 (rngP (2 * i)), np_uniform (-3) 3 (rngP (2 * i + 1))],
      rfl, rfl, ?_⟩
    intro x hx
    rcases List.mem_cons.mp hx with h | h
    · obtain ⟨h0, h1⟩ := hP (2 * i)
      subst h
      unfold np_uniform
      exact ⟨by linarith, by linarith⟩
    · rw [List.mem_singleton] at h
      obtain ⟨h0, h1⟩ := hP (2 * i + 1)
      subst h
      unfold np_uniform
      exact ⟨by linarith, by linarith⟩

/-- C8 witness: two uniform draws from the concrete all-zero stream
produce exactly two velocity records. -/
theorem C8_sample_tasks_vel_pos_witness :
    (AntVelEnvState.sample_tasks 2 wRng).length = 2 :=
  (C8_sample_tasks_vel_pos 2 3 wRng wRng
    (fun _ => ⟨le_refl 0, by norm_num [wRng]⟩)
    (fun _ => ⟨le_refl 0, by norm_num [wRng]⟩)).1

end MamlAnt
